import Mathlib

/-!
# Performance Guard — Process & Activity Telemetry Engine

Shallow embedding of `src/src-tauri/src/main.rs` (3drozd/Performance-Guard).

Machine floats (`f32`/`f64`) are modelled by exact rationals `ℚ`; unsigned
32-bit counters are modelled by `ℕ` with explicit `% 2^32` where the code's
`AtomicU32::fetch_add` can wrap; `i64` is modelled by `ℤ`.  Native OS inputs
(cursor coordinates delivered to the hook, the foreground pid, the data the
NVML driver reports, the contents of the `sysinfo` process table) are passed
as explicit parameters; the process-wide atomic statics
(`KEYBOARD_HOOK_CLICKS`, `MOUSE_DISTANCE`, `PREV_CURSOR_X`, `PREV_CURSOR_Y`)
become an explicit `ActivityState` threaded through the hook procedures and
the drain.
-/

namespace PerformanceGuard

/-- The four atomic statics of `main.rs` (lines 186–191), as one state record.
`keyboardHookClicks` and `mouseDistance` are `AtomicU32` (kept `< 2^32` by the
operations), `prevCursorX`/`prevCursorY` are `AtomicI32`. -/
structure ActivityState where
  keyboardHookClicks : ℕ
  mouseDistance : ℕ
  prevCursorX : ℤ
  prevCursorY : ℤ
  deriving Repr, DecidableEq

/-- `u32` wrap-around modulus. -/
def U32MOD : ℕ := 2 ^ 32

/-- `keyboard_hook_proc` (main.rs 212–224): on a key-down or system-key-down
message (`WM_KEYDOWN`/`WM_SYSKEYDOWN`, i.e. `isKeyDown = true`) with
`code ≥ 0`, increments the keystroke counter (wrapping `fetch_add`). -/
def keyboard_hook_proc (st : ActivityState) (code : ℤ) (isKeyDown : Bool) :
    ActivityState :=
  if 0 ≤ code ∧ isKeyDown = true then
    { st with keyboardHookClicks := (st.keyboardHookClicks + 1) % U32MOD }
  else st

/-- The pixel distance the mouse hook adds: `((dx*dx+dy*dy) as f32).sqrt() as u32`,
i.e. the Euclidean displacement truncated to an integer, modelled exactly as
`Nat.sqrt` of the squared displacement. -/
def mouseDist (x y px py : ℤ) : ℕ :=
  Nat.sqrt (((x - px) ^ 2 + (y - py) ^ 2).toNat)

/-- `mouse_hook_proc` (main.rs 226–250): on a `WM_MOUSEMOVE` with `code ≥ 0`,
swaps the stored previous cursor position for the new one and, when the
previous position was not exactly `(0,0)` ("first observed position" rule),
adds the truncated Euclidean displacement to the `MOUSE_DISTANCE` counter
(skipping a zero distance). -/
def mouse_hook_proc (st : ActivityState) (code : ℤ) (isMouseMove : Bool)
    (x y : ℤ) : ActivityState :=
  if 0 ≤ code ∧ isMouseMove = true then
    let prev_x := st.prevCursorX
    let prev_y := st.prevCursorY
    let st' := { st with prevCursorX := x, prevCursorY := y }
    if prev_x ≠ 0 ∨ prev_y ≠ 0 then
      let dist := mouseDist x y prev_x prev_y
      if dist > 0 then
        { st' with mouseDistance := (st'.mouseDistance + dist) % U32MOD }
      else st'
    else st'
  else st

/-- `RawActivityData` (main.rs 294–298). -/
structure RawActivityData where
  activity_percent : ℚ
  keyboard_clicks : ℕ
  mouse_pixels : ℕ
  deriving Repr, DecidableEq

/-- `calculate_global_activity` (main.rs 306–325): atomically swaps both
counters to zero and scores the drained values:
`click_score = min(clicks/12*100, 100)`, `mouse_score = min(dist/800*50, 50)`,
`activity_percent = min(click_score + mouse_score, 100)`.
Returns the sample together with the post-drain state. -/
def calculate_global_activity (st : ActivityState) :
    RawActivityData × ActivityState :=
  let clicks := st.keyboardHookClicks
  let total_mouse_dist := st.mouseDistance
  let st' := { st with keyboardHookClicks := 0, mouseDistance := 0 }
  let click_score : ℚ := min ((clicks : ℚ) / 12 * 100) 100
  let mouse_score : ℚ := min ((total_mouse_dist : ℚ) / 800 * 50) 50
  let activity_percent : ℚ := min (click_score + mouse_score) 100
  (⟨activity_percent, clicks, total_mouse_dist⟩, st')

/-- `check_foreground` (main.rs 367–373): pure query.  The OS-reported
foreground pid (`get_foreground_process_id`) is passed in as `fg`; the shared
activity state is threaded through unchanged, mirroring that the Rust function
touches none of the atomic statics. -/
def check_foreground (st : ActivityState) (fg : Option ℕ) (pids : List ℕ) :
    Bool × ActivityState :=
  ((fg.map (fun pid => decide (pid ∈ pids))).getD false, st)

/-! ## GPU attribution estimator -/

/-- What the NVML device reports (`none` models an `Err` from the driver call):
pids active on the compute engine, pids active on the graphics engine, and the
device's aggregate utilization percentage. -/
structure GpuDeviceData where
  computeProcs : Option (List ℕ)
  graphicsProcs : Option (List ℕ)
  utilizationRates : Option ℚ
  deriving Repr, DecidableEq

/-- `HashMap::insert`: replace the value at the key if present, else add the
entry.  (An association list is the model of `HashMap<u32, f32>`.) -/
def insertPid : List (ℕ × ℚ) → ℕ → ℚ → List (ℕ × ℚ)
  | [], pid, v => [(pid, v)]
  | (k, w) :: rest, pid, v =>
      if k = pid then (pid, v) :: rest else (k, w) :: insertPid rest pid v

/-- `HashMap::get`. -/
def lookupPid (m : List (ℕ × ℚ)) (pid : ℕ) : Option ℚ :=
  (m.find? (fun p => p.1 = pid)).map (·.2)

/-- The equal-share computation of main.rs 141–145:
`if process_count > 0.0 { overall_util / process_count } else { 0.0 }`. -/
def perProcessUtil (overall_util : ℚ) (process_count : ℚ) : ℚ :=
  if process_count > 0 then overall_util / process_count else 0

/-- `get_gpu_usage_per_process` (main.rs 106–153).  `nvmlOk` models
`Nvml::init()` succeeding, `deviceOk` models `device_by_index(0)` succeeding;
on failure of either, the empty map is returned.  Compute-engine pids are
inserted with `0.0`; then each graphics-engine pid is inserted with the
aggregate utilization divided evenly by the graphics-process count (`0` when
that count is zero). -/
def get_gpu_usage_per_process (nvmlOk deviceOk : Bool)
    (dev : GpuDeviceData) : List (ℕ × ℚ) :=
  if nvmlOk = false then [] else
  if deviceOk = false then [] else
  let gpu_usage : List (ℕ × ℚ) := []
  let gpu_usage :=
    match dev.computeProcs with
    | some procs => procs.foldl (fun m pid => insertPid m pid 0) gpu_usage
    | none => gpu_usage
  match dev.graphicsProcs with
  | some procs =>
      let process_count : ℚ := procs.length
      let overall_util : ℚ := dev.utilizationRates.getD 0
      let per_process_util := perProcessUtil overall_util process_count
      procs.foldl (fun m pid => insertPid m pid per_process_util) gpu_usage
  | none => gpu_usage

/-! ## System snapshot collector -/

/-- One entry of the `sysinfo` process table together with the result of
`get_private_working_set` for its pid (`none` = the Windows API call failed
and the code falls back to `process.memory()`). -/
structure ProcSource where
  pid : ℕ
  name : String
  cpu_usage : ℚ
  memory : ℕ
  privateWorkingSet : Option ℕ
  status : String
  start_time : ℕ
  exe_path : Option String
  deriving Repr, DecidableEq

/-- `ProcessInfo` (main.rs 44–55). -/
structure ProcessInfo where
  pid : ℕ
  name : String
  cpu_percent : ℚ
  memory_mb : ℚ
  memory_percent : ℚ
  gpu_percent : ℚ
  status : String
  create_time : ℕ
  exe_path : Option String
  deriving Repr, DecidableEq

/-- `SystemStats` (main.rs 57–65). -/
structure SystemStats where
  cpu_percent : ℚ
  memory_percent : ℚ
  total_memory_gb : ℚ
  used_memory_gb : ℚ
  available_memory_gb : ℚ
  cpu_cores : ℕ
  deriving Repr, DecidableEq

/-- The per-process sample construction inside `get_processes`
(main.rs 408–443): resolve memory (private working set, falling back to the
sysinfo figure), compute `memory_percent` guarding a zero total, normalize the
per-core CPU figure by the core-count divisor, and look the pid up in the GPU
map (0 if absent). -/
def buildProcessInfo (cpu_divisor : ℚ) (total_memory : ℕ)
    (gpu_usage : List (ℕ × ℚ)) (p : ProcSource) : ProcessInfo :=
  let memory_bytes := p.privateWorkingSet.getD p.memory
  let memory_percent : ℚ :=
    if total_memory > 0 then (memory_bytes : ℚ) / (total_memory : ℚ) * 100
    else 0
  let normalized_cpu := p.cpu_usage / cpu_divisor
  let memory_mb := (memory_bytes : ℚ) / (1024 * 1024)
  let gpu_percent := (lookupPid gpu_usage p.pid).getD 0
  { pid := p.pid, name := p.name, cpu_percent := normalized_cpu,
    memory_mb := memory_mb, memory_percent := memory_percent,
    gpu_percent := gpu_percent, status := p.status,
    create_time := p.start_time, exe_path := p.exe_path }

/-- The CPU divisor of main.rs 397–398:
`if cpu_cores > 0.0 { cpu_cores } else { 1.0 }`. -/
def cpuDivisor (numCpus : ℕ) : ℚ :=
  if (numCpus : ℚ) > 0 then (numCpus : ℚ) else 1

/-- `get_processes` (main.rs 390–450): builds one `ProcessInfo` per process
(calling the GPU estimator once for the whole pass) and sorts the list by
`cpu_percent` descending. -/
def get_processes (procs : List ProcSource) (numCpus : ℕ) (total_memory : ℕ)
    (nvmlOk deviceOk : Bool) (dev : GpuDeviceData) : List ProcessInfo :=
  let cpu_divisor := cpuDivisor numCpus
  let gpu_usage := get_gpu_usage_per_process nvmlOk deviceOk dev
  let processes := procs.map (buildProcessInfo cpu_divisor total_memory gpu_usage)
  processes.mergeSort (fun a b => b.cpu_percent ≤ a.cpu_percent)

/-- `get_system_stats` (main.rs 453–476), over the figures `sysinfo` reports. -/
def get_system_stats (total_memory used_memory available_memory : ℕ)
    (global_cpu : ℚ) (numCpus : ℕ) : SystemStats :=
  { cpu_percent := global_cpu,
    memory_percent :=
      if total_memory > 0 then (used_memory : ℚ) / (total_memory : ℚ) * 100
      else 0,
    total_memory_gb := (total_memory : ℚ) / 1024 / 1024 / 1024,
    used_memory_gb := (used_memory : ℚ) / 1024 / 1024 / 1024,
    available_memory_gb := (available_memory : ℚ) / 1024 / 1024 / 1024,
    cpu_cores := numCpus }

/-- `get_process_by_pid` (main.rs 479–512): looks the pid up in the process
table; the sample's `cpu_percent` is the raw (unnormalized) per-core figure. -/
def get_process_by_pid (procs : List ProcSource) (pid : ℕ) (total_memory : ℕ)
    (nvmlOk deviceOk : Bool) (dev : GpuDeviceData) : Option ProcessInfo :=
  let gpu_usage := get_gpu_usage_per_process nvmlOk deviceOk dev
  (procs.find? (fun p => p.pid = pid)).map (fun process =>
    let memory_bytes := process.privateWorkingSet.getD process.memory
    let memory_percent : ℚ :=
      if total_memory > 0 then (memory_bytes : ℚ) / (total_memory : ℚ) * 100
      else 0
    let gpu_percent := (lookupPid gpu_usage pid).getD 0
    { pid := pid, name := process.name, cpu_percent := process.cpu_usage,
      memory_mb := (memory_bytes : ℚ) / 1024 / 1024,
      memory_percent := memory_percent, gpu_percent := gpu_percent,
      status := process.status, create_time := process.start_time,
      exe_path := process.exe_path })

/-! ## Session & whitelist store

`serde_json` is modelled at the level of the JSON document tree: `Json` below
is the abstract syntax of a JSON value (`f64` numbers as exact rationals,
`i64` as integers carried inside the rational).  `to_string_pretty` /
`from_str` — the faithful text encoding of a tree and its parse — are the
library boundary; a persisted file is therefore modelled as either absent,
unreadable (an `fs::read_to_string` error), malformed text (a `from_str`
error), or a parsed document tree.  The `Serialize`/`Deserialize` derives of
the repository's structs are embedded field by field below, including the
`#[serde(default)]` attributes and serde's treatment of `Option` fields. -/

inductive Json where
  | null : Json
  | bool (b : Bool) : Json
  | num (q : ℚ) : Json
  | str (s : String) : Json
  | arr (items : List Json) : Json
  | obj (fields : List (String × Json)) : Json

/-- serde object-field lookup (first occurrence wins). -/
def getField (fields : List (String × Json)) (name : String) : Option Json :=
  (fields.find? (fun p => p.1 = name)).map (·.2)

/-- Deserialize a JSON value as a string. -/
def asStr : Json → Except String String
  | .str s => .ok s
  | _ => .error "invalid type: expected a string"

/-- Deserialize a JSON value as an `f64`. -/
def asF64 : Json → Except String ℚ
  | .num q => .ok q
  | _ => .error "invalid type: expected a number"

/-- Deserialize a JSON value as an `i64` (must be an integer). -/
def asI64 : Json → Except String ℤ
  | .num q => if q.den = 1 then .ok q.num else .error "invalid type: expected an integer"
  | _ => .error "invalid type: expected an integer"

/-- Deserialize a JSON value as a `bool`. -/
def asBool : Json → Except String Bool
  | .bool b => .ok b
  | _ => .error "invalid type: expected a boolean"

/-- A required field: missing is a deserialization error. -/
def reqField (fields : List (String × Json)) (name : String)
    (dec : Json → Except String α) : Except String α :=
  match getField fields name with
  | some j => dec j
  | none => .error ("missing field " ++ name)

/-- A `#[serde(default)]` field: missing yields the default. -/
def defField (fields : List (String × Json)) (name : String)
    (dec : Json → Except String α) (dflt : α) : Except String α :=
  match getField fields name with
  | some j => dec j
  | none => .ok dflt

/-- An `Option<String>` field: serde treats a missing or `null` field as
`None`. -/
def optStrField (fields : List (String × Json)) (name : String) :
    Except String (Option String) :=
  match getField fields name with
  | some .null => .ok none
  | some (.str s) => .ok (some s)
  | some _ => .error "invalid type: expected a string or null"
  | none => .ok none

/-- Serialize an `Option<String>` (serde: `None` ↦ `null`). -/
def optStrJson : Option String → Json
  | none => .null
  | some s => .str s

/-- serde's sequence deserialization: elements in order, first error
propagates. -/
def deserList (dec : Json → Except String α) : List Json → Except String (List α)
  | [] => .ok []
  | j :: rest => do
      let a ← dec j
      let as ← deserList dec rest
      .ok (a :: as)

/-- `PerformanceSnapshot` (main.rs 515–527); `gpu_percent`,
`user_activity_percent` and `is_foreground` carry `#[serde(default)]`. -/
structure PerformanceSnapshot where
  timestamp : String
  cpu_percent : ℚ
  memory_mb : ℚ
  memory_percent : ℚ
  gpu_percent : ℚ
  user_activity_percent : ℚ
  is_foreground : Bool
  deriving Repr, DecidableEq

/-- Derived `Serialize` for `PerformanceSnapshot`. -/
def PerformanceSnapshot.ser (p : PerformanceSnapshot) : Json :=
  .obj [("timestamp", .str p.timestamp),
        ("cpu_percent", .num p.cpu_percent),
        ("memory_mb", .num p.memory_mb),
        ("memory_percent", .num p.memory_percent),
        ("gpu_percent", .num p.gpu_percent),
        ("user_activity_percent", .num p.user_activity_percent),
        ("is_foreground", .bool p.is_foreground)]

/-- Derived `Deserialize` for `PerformanceSnapshot`. -/
def PerformanceSnapshot.deser (j : Json) : Except String PerformanceSnapshot :=
  match j with
  | .obj fields => do
      let timestamp ← reqField fields "timestamp" asStr
      let cpu_percent ← reqField fields "cpu_percent" asF64
      let memory_mb ← reqField fields "memory_mb" asF64
      let memory_percent ← reqField fields "memory_percent" asF64
      let gpu_percent ← defField fields "gpu_percent" asF64 0
      let user_activity_percent ← defField fields "user_activity_percent" asF64 0
      let is_foreground ← defField fields "is_foreground" asBool false
      .ok ⟨timestamp, cpu_percent, memory_mb, memory_percent, gpu_percent,
           user_activity_percent, is_foreground⟩
  | _ => .error "invalid type: expected an object"

/-- `SavedSession` (main.rs 530–548); `avg_gpu_percent`, `peak_gpu_percent`
and `performance_history` carry `#[serde(default)]`. -/
structure SavedSession where
  id : ℤ
  app_name : String
  start_time : String
  end_time : Option String
  duration_seconds : ℤ
  avg_cpu_percent : ℚ
  avg_memory_mb : ℚ
  avg_gpu_percent : ℚ
  peak_cpu_percent : ℚ
  peak_memory_mb : ℚ
  peak_gpu_percent : ℚ
  is_current : Bool
  performance_history : List PerformanceSnapshot
  deriving Repr, DecidableEq

/-- Derived `Serialize` for `SavedSession`. -/
def SavedSession.ser (s : SavedSession) : Json :=
  .obj [("id", .num (s.id : ℚ)),
        ("app_name", .str s.app_name),
        ("start_time", .str s.start_time),
        ("end_time", optStrJson s.end_time),
        ("duration_seconds", .num (s.duration_seconds : ℚ)),
        ("avg_cpu_percent", .num s.avg_cpu_percent),
        ("avg_memory_mb", .num s.avg_memory_mb),
        ("avg_gpu_percent", .num s.avg_gpu_percent),
        ("peak_cpu_percent", .num s.peak_cpu_percent),
        ("peak_memory_mb", .num s.peak_memory_mb),
        ("peak_gpu_percent", .num s.peak_gpu_percent),
        ("is_current", .bool s.is_current),
        ("performance_history", .arr (s.performance_history.map PerformanceSnapshot.ser))]

/-- Deserialize a JSON value as a `Vec<PerformanceSnapshot>`. -/
def asSnapshotVec : Json → Except String (List PerformanceSnapshot)
  | .arr items => deserList PerformanceSnapshot.deser items
  | _ => .error "invalid type: expected a sequence"

/-- Derived `Deserialize` for `SavedSession`. -/
def SavedSession.deser (j : Json) : Except String SavedSession :=
  match j with
  | .obj fields => do
      let id ← reqField fields "id" asI64
      let app_name ← reqField fields "app_name" asStr
      let start_time ← reqField fields "start_time" asStr
      let end_time ← optStrField fields "end_time"
      let duration_seconds ← reqField fields "duration_seconds" asI64
      let avg_cpu_percent ← reqField fields "avg_cpu_percent" asF64
      let avg_memory_mb ← reqField fields "avg_memory_mb" asF64
      let avg_gpu_percent ← defField fields "avg_gpu_percent" asF64 0
      let peak_cpu_percent ← reqField fields "peak_cpu_percent" asF64
      let peak_memory_mb ← reqField fields "peak_memory_mb" asF64
      let peak_gpu_percent ← defField fields "peak_gpu_percent" asF64 0
      let is_current ← reqField fields "is_current" asBool
      let performance_history ← defField fields "performance_history" asSnapshotVec []
      .ok ⟨id, app_name, start_time, end_time, duration_seconds,
           avg_cpu_percent, avg_memory_mb, avg_gpu_percent, peak_cpu_percent,
           peak_memory_mb, peak_gpu_percent, is_current, performance_history⟩
  | _ => .error "invalid type: expected an object"

/-- `SavedWhitelistEntry` (main.rs 550–557). -/
structure SavedWhitelistEntry where
  id : ℤ
  name : String
  exe_path : Option String
  added_date : String
  is_tracked : Bool
  deriving Repr, DecidableEq

/-- Derived `Serialize` for `SavedWhitelistEntry`. -/
def SavedWhitelistEntry.ser (w : SavedWhitelistEntry) : Json :=
  .obj [("id", .num (w.id : ℚ)),
        ("name", .str w.name),
        ("exe_path", optStrJson w.exe_path),
        ("added_date", .str w.added_date),
        ("is_tracked", .bool w.is_tracked)]

/-- Derived `Deserialize` for `SavedWhitelistEntry`. -/
def SavedWhitelistEntry.deser (j : Json) : Except String SavedWhitelistEntry :=
  match j with
  | .obj fields => do
      let id ← reqField fields "id" asI64
      let name ← reqField fields "name" asStr
      let exe_path ← optStrField fields "exe_path"
      let added_date ← reqField fields "added_date" asStr
      let is_tracked ← reqField fields "is_tracked" asBool
      .ok ⟨id, name, exe_path, added_date, is_tracked⟩
  | _ => .error "invalid type: expected an object"

/-- `AppData` (main.rs 559–564); `#[derive(Default)]` gives the empty
whitelist, no sessions and `next_session_id = 0`. -/
structure AppData where
  whitelist : List SavedWhitelistEntry
  sessions : List SavedSession
  next_session_id : ℤ
  deriving Repr, DecidableEq

instance : Inhabited AppData := ⟨⟨[], [], 0⟩⟩

/-- `AppData::default()`. -/
def AppData.default : AppData := ⟨[], [], 0⟩

/-- Derived `Serialize` for `AppData`. -/
def AppData.ser (d : AppData) : Json :=
  .obj [("whitelist", .arr (d.whitelist.map SavedWhitelistEntry.ser)),
        ("sessions", .arr (d.sessions.map SavedSession.ser)),
        ("next_session_id", .num (d.next_session_id : ℚ))]

/-- Deserialize a JSON value as a `Vec<SavedWhitelistEntry>`. -/
def asWhitelistVec : Json → Except String (List SavedWhitelistEntry)
  | .arr items => deserList SavedWhitelistEntry.deser items
  | _ => .error "invalid type: expected a sequence"

/-- Deserialize a JSON value as a `Vec<SavedSession>`. -/
def asSessionVec : Json → Except String (List SavedSession)
  | .arr items => deserList SavedSession.deser items
  | _ => .error "invalid type: expected a sequence"

/-- Derived `Deserialize` for `AppData` (all three fields required). -/
def AppData.deser (j : Json) : Except String AppData :=
  match j with
  | .obj fields => do
      let whitelist ← reqField fields "whitelist" asWhitelistVec
      let sessions ← reqField fields "sessions" asSessionVec
      let next_session_id ← reqField fields "next_session_id" asI64
      .ok ⟨whitelist, sessions, next_session_id⟩
  | _ => .error "invalid type: expected an object"

/-- The state of the persisted `performance_guard_data.json` file. -/
inductive FileState where
  | absent : FileState
  | unreadable (err : String) : FileState
  | malformed (err : String) : FileState
  | content (j : Json) : FileState

/-- `save_app_data` (main.rs 570–589) on the success path of
`create_dir_all` and `fs::write`: assembles the `AppData` document,
serializes it and overwrites the file wholesale.  Returns the new file
state. -/
def save_app_data (whitelist : List SavedWhitelistEntry)
    (sessions : List SavedSession) (next_session_id : ℤ) : FileState :=
  let data : AppData := ⟨whitelist, sessions, next_session_id⟩
  .content (AppData.ser data)

/-- `load_app_data` (main.rs 591–603): a missing file is success with the
default document; a read error or a parse error is propagated as the error
string; a parsed document is deserialized (which can itself fail). -/
def load_app_data (file : FileState) : Except String AppData :=
  match file with
  | .absent => .ok AppData.default
  | .unreadable e => .error e
  | .malformed e => .error e
  | .content j => AppData.deser j

/-! ## Round-trip lemmas for the store -/

/-- Bind on a successful `Except` computation. -/
theorem exceptOkBind (a : α) (f : α → Except String β) :
    (Except.ok a >>= f : Except String β) = f a := rfl

/-- `PerformanceSnapshot` serialization round trip. -/
theorem snapRoundTrip (p : PerformanceSnapshot) :
    PerformanceSnapshot.deser (PerformanceSnapshot.ser p) = .ok p := rfl

/-- Sequences of `PerformanceSnapshot` round trip. -/
theorem snapListRoundTrip (l : List PerformanceSnapshot) :
    deserList PerformanceSnapshot.deser (l.map PerformanceSnapshot.ser) = .ok l := by
  induction l with
  | nil => rfl
  | cons h t ih => simp [deserList, snapRoundTrip, ih, exceptOkBind]

/-- `SavedSession` serialization round trip. -/
theorem sessRoundTrip (s : SavedSession) :
    SavedSession.deser (SavedSession.ser s) = .ok s := by
  cases s with
  | mk id app_name start_time end_time duration_seconds a b c d e f g history =>
    cases end_time <;>
      simp [SavedSession.ser, SavedSession.deser, reqField, defField, optStrField,
        getField, optStrJson, asI64, asStr, asF64, asBool, asSnapshotVec,
        snapListRoundTrip, Rat.den_intCast, Rat.num_intCast, exceptOkBind]

/-- `SavedWhitelistEntry` serialization round trip. -/
theorem wlRoundTrip (w : SavedWhitelistEntry) :
    SavedWhitelistEntry.deser (SavedWhitelistEntry.ser w) = .ok w := by
  cases w with
  | mk id name exe_path added_date is_tracked => cases exe_path <;> rfl

/-- Sequences of `SavedWhitelistEntry` round trip. -/
theorem wlListRoundTrip (l : List SavedWhitelistEntry) :
    deserList SavedWhitelistEntry.deser (l.map SavedWhitelistEntry.ser) = .ok l := by
  induction l with
  | nil => rfl
  | cons h t ih => simp [deserList, wlRoundTrip, ih, exceptOkBind]

/-- Sequences of `SavedSession` round trip. -/
theorem sessListRoundTrip (l : List SavedSession) :
    deserList SavedSession.deser (l.map SavedSession.ser) = .ok l := by
  induction l with
  | nil => rfl
  | cons h t ih => simp [deserList, sessRoundTrip, ih, exceptOkBind]

/-- `AppData` serialization round trip. -/
theorem appDataRoundTrip (d : AppData) : AppData.deser (AppData.ser d) = .ok d := by
  cases d with
  | mk wl sess nid =>
    simp [AppData.ser, AppData.deser, reqField, getField, asWhitelistVec,
      asSessionVec, asI64, wlListRoundTrip, sessListRoundTrip,
      Rat.den_intCast, Rat.num_intCast, exceptOkBind]

/-! ## Association-list (HashMap) lemmas -/

/-- Looking up the key just inserted. -/
theorem lookup_insertPid_self (m : List (ℕ × ℚ)) (pid : ℕ) (v : ℚ) :
    lookupPid (insertPid m pid v) pid = some v := by
  induction m with
  | nil => simp [insertPid, lookupPid]
  | cons hd tl ih =>
      obtain ⟨k, w⟩ := hd
      simp only [insertPid]
      split_ifs with h
      · simp [lookupPid]
      · simpa [lookupPid, List.find?, h] using ih

/-- Inserting a different key leaves a lookup unchanged. -/
theorem lookup_insertPid_ne (m : List (ℕ × ℚ)) (p pid : ℕ) (v : ℚ)
    (h : p ≠ pid) : lookupPid (insertPid m p v) pid = lookupPid m pid := by
  induction m with
  | nil => simp [insertPid, lookupPid, List.find?, h]
  | cons hd tl ih =>
      obtain ⟨k, w⟩ := hd
      simp only [insertPid]
      split_ifs with hk
      · subst hk
        simp [lookupPid, List.find?, h]
      · by_cases hk2 : k = pid
        · simp [lookupPid, List.find?, hk2]
        · simpa [lookupPid, List.find?, hk2] using ih

/-- A fold of inserts never touches a key outside the inserted list. -/
theorem lookup_foldl_insert_not_mem (procs : List ℕ) (m : List (ℕ × ℚ))
    (v : ℚ) (pid : ℕ) (h : pid ∉ procs) :
    lookupPid (procs.foldl (fun acc q => insertPid acc q v) m) pid
      = lookupPid m pid := by
  induction procs generalizing m with
  | nil => rfl
  | cons q rest ih =>
      simp only [List.foldl_cons]
      have hq : q ≠ pid := fun hqe => h (hqe ▸ List.mem_cons_self q rest)
      rw [ih _ (fun hm => h (List.mem_cons_of_mem _ hm)),
        lookup_insertPid_ne _ _ _ _ hq]

/-- A fold of inserts maps every inserted key to the inserted value. -/
theorem lookup_foldl_insert_mem (procs : List ℕ) (m : List (ℕ × ℚ))
    (v : ℚ) (pid : ℕ) (h : pid ∈ procs) :
    lookupPid (procs.foldl (fun acc q => insertPid acc q v) m) pid = some v := by
  induction procs generalizing m with
  | nil => cases h
  | cons q rest ih =>
      simp only [List.foldl_cons]
      by_cases hr : pid ∈ rest
      · exact ih _ hr
      · have hq : q = pid := by
          rcases List.mem_cons.mp h with h' | h'
          · exact h'.symm
          · exact absurd h' hr
        subst hq
        rw [lookup_foldl_insert_not_mem _ _ _ _ hr, lookup_insertPid_self]

/-- An entry of `insertPid m pid v` is an old entry or the new one. -/
theorem mem_insertPid (m : List (ℕ × ℚ)) (pid : ℕ) (v : ℚ) :
    ∀ e ∈ insertPid m pid v, e ∈ m ∨ e = (pid, v) := by
  induction m with
  | nil => intro e he; simp [insertPid] at he; exact Or.inr he
  | cons hd tl ih =>
      obtain ⟨k, w⟩ := hd
      intro e he
      simp only [insertPid] at he
      split_ifs at he with h
      · rcases List.mem_cons.mp he with h' | h'
        · exact Or.inr h'
        · exact Or.inl (List.mem_cons_of_mem _ h')
      · rcases List.mem_cons.mp he with h' | h'
        · exact Or.inl (h' ▸ List.mem_cons_self _ _)
        · rcases ih e h' with h'' | h''
          · exact Or.inl (List.mem_cons_of_mem _ h'')
          · exact Or.inr h''

/-- Folding inserts of one fixed value over a map whose values all equal that
value keeps every value equal to it. -/
theorem foldl_insert_val (procs : List ℕ) (m : List (ℕ × ℚ)) (v : ℚ)
    (h : ∀ e ∈ m, e.2 = v) :
    ∀ e ∈ procs.foldl (fun acc q => insertPid acc q v) m, e.2 = v := by
  induction procs generalizing m with
  | nil => exact h
  | cons q rest ih =>
      simp only [List.foldl_cons]
      refine ih _ (fun e he => ?_)
      rcases mem_insertPid m q v e he with h' | h'
      · exact h e h'
      · rw [h']

/-! ## Structural lemmas for the mouse hook -/

/-- After any accepted mouse-move, the stored previous position is the new
cursor position. -/
theorem mouse_hook_proc_prev (st : ActivityState) (c x y : ℤ) (h : 0 ≤ c) :
    (mouse_hook_proc st c true x y).prevCursorX = x
    ∧ (mouse_hook_proc st c true x y).prevCursorY = y := by
  simp only [mouse_hook_proc]
  split_ifs with hc hp hd
  · exact ⟨rfl, rfl⟩
  · exact ⟨rfl, rfl⟩
  · exact ⟨rfl, rfl⟩
  · exact absurd ⟨h, trivial⟩ hc

/-- A mouse-move whose stored previous position is exactly the origin only
re-seeds the reference point: the distance counter is untouched. -/
theorem mouse_hook_proc_from_origin (st : ActivityState) (c x y : ℤ)
    (h : 0 ≤ c) (h0x : st.prevCursorX = 0) (h0y : st.prevCursorY = 0) :
    mouse_hook_proc st c true x y
      = { st with prevCursorX := x, prevCursorY := y } := by
  simp only [mouse_hook_proc]
  split_ifs with hc hp hd
  · rcases hp with hp | hp
    · exact absurd h0x hp
    · exact absurd h0y hp
  · rcases hp with hp | hp
    · exact absurd h0x hp
    · exact absurd h0y hp
  · rfl
  · exact absurd ⟨h, trivial⟩ hc

/-- At a zero total the guarded percentage
`if total > 0 { b / total * 100 } else { 0 }` is exactly 0, for any byte
figure `b`: the division is skipped. -/
theorem memPercentZero (b total : ℕ) (h : total = 0) :
    (if total > 0 then (b : ℚ) / (total : ℚ) * 100 else 0) = 0 := by
  simp [h]

/-- At a positive total with `b ≤ total`, the guarded percentage lies in
`[0, 100]`. -/
theorem memPercentBounds (b total : ℕ) (ht : 0 < total) (hb : b ≤ total) :
    0 ≤ (if total > 0 then (b : ℚ) / (total : ℚ) * 100 else 0)
    ∧ (if total > 0 then (b : ℚ) / (total : ℚ) * 100 else 0) ≤ 100 := by
  rw [if_pos ht]
  have ht' : (0 : ℚ) < (total : ℚ) := by exact_mod_cast ht
  have hb' : (b : ℚ) ≤ (total : ℚ) := by exact_mod_cast hb
  constructor
  · positivity
  · have h1 : (b : ℚ) / (total : ℚ) ≤ 1 := (div_le_one ht').mpr hb'
    calc (b : ℚ) / (total : ℚ) * 100 ≤ 1 * 100 :=
          mul_le_mul_of_nonneg_right h1 (by norm_num)
      _ = 100 := one_mul 100

/-! ## The claims -/

/-- C1: for every pair of drained counter values, `calculate_global_activity`
returns `activity_percent = min(min(k/12*100, 100) + min(d/800*50, 50), 100)`;
in particular `k=12,d=0 ↦ 100`, `k=0,d=800 ↦ 50`, `k=6,d=400 ↦ 75`,
`k=100,d=10000 ↦ 100`, and the result always lies in `[0, 100]`. -/
theorem activity_score_formula :
    (∀ (k d : ℕ) (px py : ℤ),
      (calculate_global_activity ⟨k, d, px, py⟩).1.activity_percent
        = min (min ((k : ℚ) / 12 * 100) 100 + min ((d : ℚ) / 800 * 50) 50) 100
      ∧ 0 ≤ (calculate_global_activity ⟨k, d, px, py⟩).1.activity_percent
      ∧ (calculate_global_activity ⟨k, d, px, py⟩).1.activity_percent ≤ 100)
    ∧ (calculate_global_activity ⟨12, 0, 0, 0⟩).1.activity_percent = 100
    ∧ (calculate_global_activity ⟨0, 800, 0, 0⟩).1.activity_percent = 50
    ∧ (calculate_global_activity ⟨6, 400, 0, 0⟩).1.activity_percent = 75
    ∧ (calculate_global_activity ⟨100, 10000, 0, 0⟩).1.activity_percent = 100 := by
  refine ⟨fun k d px py => ⟨rfl, ?_, ?_⟩, ?_, ?_, ?_, ?_⟩
  · show (0 : ℚ) ≤ min (min ((k : ℚ) / 12 * 100) 100 + min ((d : ℚ) / 800 * 50) 50) 100
    positivity
  · exact min_le_right _ _
  all_goals norm_num [calculate_global_activity]

/-- C2: each drain swaps both counters to zero, so a second drain with no
intervening hook increments observes zero counters and returns
`activity_percent = 0`, `keyboard_clicks = 0`, `mouse_pixels = 0`. -/
theorem drain_resets_counters (st : ActivityState) :
    (calculate_global_activity st).2.keyboardHookClicks = 0
    ∧ (calculate_global_activity st).2.mouseDistance = 0
    ∧ (calculate_global_activity
        (calculate_global_activity st).2).1.activity_percent = 0
    ∧ (calculate_global_activity
        (calculate_global_activity st).2).1.keyboard_clicks = 0
    ∧ (calculate_global_activity
        (calculate_global_activity st).2).1.mouse_pixels = 0 := by
  refine ⟨rfl, rfl, ?_, rfl, rfl⟩
  norm_num [calculate_global_activity]

/-- C3: `save_app_data` followed by `load_app_data` reproduces the very
`AppData` that was saved, for arbitrary whitelist entries, sessions (empty
histories included) and `next_session_id`, on the success path of the
filesystem write and read. -/
theorem save_load_round_trip (whitelist : List SavedWhitelistEntry)
    (sessions : List SavedSession) (next_session_id : ℤ) :
    load_app_data (save_app_data whitelist sessions next_session_id)
      = .ok ⟨whitelist, sessions, next_session_id⟩ := by
  show AppData.deser (AppData.ser ⟨whitelist, sessions, next_session_id⟩)
    = .ok ⟨whitelist, sessions, next_session_id⟩
  exact appDataRoundTrip _

/-- C4: `load_app_data` returns `Ok` with the default `AppData` (empty
whitelist, empty sessions, `next_session_id = 0`) when the file is absent, and
a descriptive error (never the defaults) when the file exists but reading it
or parsing its JSON fails. -/
theorem load_missing_defaults_and_errors (e : String) (j : Json) (m : String)
    (hj : AppData.deser j = .error m) :
    load_app_data .absent = .ok AppData.default
    ∧ AppData.default.whitelist = []
    ∧ AppData.default.sessions = []
    ∧ AppData.default.next_session_id = 0
    ∧ load_app_data (.unreadable e) = .error e
    ∧ load_app_data (.malformed e) = .error e
    ∧ load_app_data (.content j) = .error m :=
  ⟨rfl, rfl, rfl, rfl, rfl, rfl, hj⟩

/-- Witness for C4 at a concrete unparsable document (`null` is not an
`AppData` object). -/
theorem load_missing_defaults_and_errors_witness :
    load_app_data .absent = .ok AppData.default
    ∧ AppData.default.whitelist = []
    ∧ AppData.default.sessions = []
    ∧ AppData.default.next_session_id = 0
    ∧ load_app_data (.unreadable "io error") = .error "io error"
    ∧ load_app_data (.malformed "io error") = .error "io error"
    ∧ load_app_data (.content .null)
        = .error "invalid type: expected an object" :=
  load_missing_defaults_and_errors "io error" .null
    "invalid type: expected an object" rfl

/-- C5: with zero running graphics processes the estimator distributes no
utilization, whatever the aggregate utilization reading: every recorded entry
(the compute-engine ones) carries 0, no key outside the compute list is
present, and the per-process share at a zero process count is 0 by the guard,
not by a division. -/
theorem gpu_zero_graphics_distributes_nothing (co : Option (List ℕ))
    (ur : Option ℚ) :
    (∀ e ∈ get_gpu_usage_per_process true true ⟨co, some [], ur⟩, e.2 = 0)
    ∧ (∀ pid, pid ∉ co.getD [] →
        lookupPid (get_gpu_usage_per_process true true ⟨co, some [], ur⟩) pid
          = none)
    ∧ perProcessUtil (ur.getD 0) ((([] : List ℕ).length : ℚ)) = 0 := by
  cases co with
  | none =>
      refine ⟨?_, ?_, by simp [perProcessUtil]⟩ <;>
        simp [get_gpu_usage_per_process, lookupPid]
  | some cs =>
      have hred : get_gpu_usage_per_process true true ⟨some cs, some [], ur⟩
          = cs.foldl (fun acc q => insertPid acc q 0) [] := by
        simp [get_gpu_usage_per_process]
      refine ⟨?_, ?_, by simp [perProcessUtil]⟩
      · rw [hred]
        exact foldl_insert_val cs [] 0 (by intro e he; cases he)
      · intro pid hpid
        rw [hred, lookup_foldl_insert_not_mem _ _ _ _ (by simpa using hpid)]
        rfl

/-- Witness for C5 with one compute process and a nonzero aggregate
utilization. -/
theorem gpu_zero_graphics_distributes_nothing_witness :
    (∀ e ∈ get_gpu_usage_per_process true true ⟨some [3], some [], some 70⟩,
        e.2 = 0)
    ∧ (∀ pid, pid ∉ (some [3] : Option (List ℕ)).getD [] →
        lookupPid
          (get_gpu_usage_per_process true true ⟨some [3], some [], some 70⟩)
          pid = none)
    ∧ perProcessUtil ((some (70 : ℚ)).getD 0) ((([] : List ℕ).length : ℚ))
        = 0 :=
  gpu_zero_graphics_distributes_nothing (some [3]) (some 70)

/-- C6: in `get_processes`, `get_process_by_pid` and `get_system_stats`, a
zero reported total memory gives `memory_percent = 0` exactly — the division
is skipped, whatever the resolved byte figures are — and a positive total
with resolved bytes at most the total gives `memory_percent ∈ [0, 100]`.
The `bytes ≤ total` condition belongs only to the positive-total branch. -/
theorem memory_percent_guard_and_bounds (procs : List ProcSource)
    (numCpus total used avail : ℕ) (gcpu : ℚ) (nvmlOk deviceOk : Bool)
    (dev : GpuDeviceData) (pid : ℕ) :
    (∀ info ∈ get_processes procs numCpus total nvmlOk deviceOk dev,
        (total = 0 → info.memory_percent = 0)
        ∧ (0 < total →
            (∀ p ∈ procs, p.privateWorkingSet.getD p.memory ≤ total) →
            0 ≤ info.memory_percent ∧ info.memory_percent ≤ 100))
    ∧ (∀ info,
        get_process_by_pid procs pid total nvmlOk deviceOk dev = some info →
        (total = 0 → info.memory_percent = 0)
        ∧ (0 < total →
            (∀ p ∈ procs, p.privateWorkingSet.getD p.memory ≤ total) →
            0 ≤ info.memory_percent ∧ info.memory_percent ≤ 100))
    ∧ (total = 0 →
        (get_system_stats total used avail gcpu numCpus).memory_percent = 0)
    ∧ (0 < total → used ≤ total →
        0 ≤ (get_system_stats total used avail gcpu numCpus).memory_percent
        ∧ (get_system_stats total used avail gcpu numCpus).memory_percent
            ≤ 100) := by
  refine ⟨?_, ?_, fun h => memPercentZero used total h,
    fun ht hu => memPercentBounds used total ht hu⟩
  · intro info hinfo
    rw [get_processes, List.mem_mergeSort] at hinfo
    obtain ⟨p, hp, rfl⟩ := List.mem_map.mp hinfo
    exact ⟨fun h => memPercentZero _ total h,
      fun ht hmem => memPercentBounds _ total ht (hmem p hp)⟩
  · intro info hinfo
    rw [get_process_by_pid] at hinfo
    obtain ⟨p, hfind, rfl⟩ := Option.map_eq_some'.mp hinfo
    exact ⟨fun h => memPercentZero _ total h,
      fun ht hmem =>
        memPercentBounds _ total ht (hmem p (List.mem_of_find?_eq_some hfind))⟩

/-- Witness for C6, at two concrete inputs: a zero reported total while the
one process holds 100 bytes (the division-skipped branch, previously the
hazard case), and a 1000-byte total with 500 bytes used (the bounded
branch). -/
theorem memory_percent_guard_and_bounds_witness :
    ((∀ info ∈ get_processes [⟨1, "app", 50, 100, none, "Run", 7, none⟩]
        2 0 false false ⟨none, none, none⟩,
        (0 = 0 → info.memory_percent = 0)
        ∧ (0 < 0 →
            (∀ p ∈ [(⟨1, "app", 50, 100, none, "Run", 7, none⟩ : ProcSource)],
              p.privateWorkingSet.getD p.memory ≤ 0) →
            0 ≤ info.memory_percent ∧ info.memory_percent ≤ 100))
    ∧ (∀ info,
        get_process_by_pid [⟨1, "app", 50, 100, none, "Run", 7, none⟩]
          1 0 false false ⟨none, none, none⟩ = some info →
        (0 = 0 → info.memory_percent = 0)
        ∧ (0 < 0 →
            (∀ p ∈ [(⟨1, "app", 50, 100, none, "Run", 7, none⟩ : ProcSource)],
              p.privateWorkingSet.getD p.memory ≤ 0) →
            0 ≤ info.memory_percent ∧ info.memory_percent ≤ 100))
    ∧ (0 = 0 → (get_system_stats 0 5 0 10 2).memory_percent = 0)
    ∧ (0 < 0 → 5 ≤ 0 →
        0 ≤ (get_system_stats 0 5 0 10 2).memory_percent
        ∧ (get_system_stats 0 5 0 10 2).memory_percent ≤ 100))
    ∧ ((∀ info ∈ get_processes [⟨1, "app", 50, 100, none, "Run", 7, none⟩]
        2 1000 false false ⟨none, none, none⟩,
        (1000 = 0 → info.memory_percent = 0)
        ∧ (0 < 1000 →
            (∀ p ∈ [(⟨1, "app", 50, 100, none, "Run", 7, none⟩ : ProcSource)],
              p.privateWorkingSet.getD p.memory ≤ 1000) →
            0 ≤ info.memory_percent ∧ info.memory_percent ≤ 100))
    ∧ (∀ info,
        get_process_by_pid [⟨1, "app", 50, 100, none, "Run", 7, none⟩]
          1 1000 false false ⟨none, none, none⟩ = some info →
        (1000 = 0 → info.memory_percent = 0)
        ∧ (0 < 1000 →
            (∀ p ∈ [(⟨1, "app", 50, 100, none, "Run", 7, none⟩ : ProcSource)],
              p.privateWorkingSet.getD p.memory ≤ 1000) →
            0 ≤ info.memory_percent ∧ info.memory_percent ≤ 100))
    ∧ (1000 = 0 → (get_system_stats 1000 500 500 10 2).memory_percent = 0)
    ∧ (0 < 1000 → 500 ≤ 1000 →
        0 ≤ (get_system_stats 1000 500 500 10 2).memory_percent
        ∧ (get_system_stats 1000 500 500 10 2).memory_percent ≤ 100)) :=
  ⟨memory_percent_guard_and_bounds
      [⟨1, "app", 50, 100, none, "Run", 7, none⟩] 2 0 5 0 10 false false
      ⟨none, none, none⟩ 1,
    memory_percent_guard_and_bounds
      [⟨1, "app", 50, 100, none, "Run", 7, none⟩] 2 1000 500 500 10 false false
      ⟨none, none, none⟩ 1⟩

/-- C7: every sample of `get_processes` has
`cpu_percent = raw_per_core_usage / core_count` (divisor 1 at zero cores),
and raw usage within `[0, 100·core_count]` keeps the normalized figure in
`[0, 100]`. -/
theorem cpu_normalization_bounds (procs : List ProcSource) (numCpus total : ℕ)
    (nvmlOk deviceOk : Bool) (dev : GpuDeviceData)
    (hcpu : ∀ p ∈ procs, 0 ≤ p.cpu_usage ∧ p.cpu_usage ≤ 100 * (numCpus : ℚ)) :
    cpuDivisor 0 = 1
    ∧ ∀ info ∈ get_processes procs numCpus total nvmlOk deviceOk dev,
        (∃ p ∈ procs, info.cpu_percent = p.cpu_usage / cpuDivisor numCpus)
        ∧ 0 ≤ info.cpu_percent ∧ info.cpu_percent ≤ 100 := by
  refine ⟨by simp [cpuDivisor], ?_⟩
  intro info hinfo
  rw [get_processes, List.mem_mergeSort] at hinfo
  obtain ⟨p, hp, rfl⟩ := List.mem_map.mp hinfo
  obtain ⟨h0, h1⟩ := hcpu p hp
  refine ⟨⟨p, hp, rfl⟩, ?_, ?_⟩
  · show 0 ≤ p.cpu_usage / cpuDivisor numCpus
    have hd : 0 < cpuDivisor numCpus := by
      rw [cpuDivisor]; split_ifs with h
      · exact h
      · norm_num
    positivity
  · show p.cpu_usage / cpuDivisor numCpus ≤ 100
    rcases Nat.eq_zero_or_pos numCpus with h | h
    · subst h
      have hz : p.cpu_usage = 0 := le_antisymm (by simpa using h1) h0
      simp [hz, cpuDivisor]
    · have hpos : (0 : ℚ) < (numCpus : ℚ) := by exact_mod_cast h
      have hd : cpuDivisor numCpus = (numCpus : ℚ) := if_pos hpos
      rw [hd, div_le_iff₀ hpos]
      linarith [h1]

/-- Witness for C7 on a one-process table: 150% per-core raw usage on 2 cores
normalizes to 75%. -/
theorem cpu_normalization_bounds_witness :
    cpuDivisor 0 = 1
    ∧ ∀ info ∈ get_processes [⟨1, "app", 150, 100, none, "Run", 7, none⟩]
        2 1000 false false ⟨none, none, none⟩,
        (∃ p ∈ [(⟨1, "app", 150, 100, none, "Run", 7, none⟩ : ProcSource)],
            info.cpu_percent = p.cpu_usage / cpuDivisor 2)
        ∧ 0 ≤ info.cpu_percent ∧ info.cpu_percent ≤ 100 :=
  cpu_normalization_bounds [⟨1, "app", 150, 100, none, "Run", 7, none⟩]
    2 1000 false false ⟨none, none, none⟩
    (by intro p hp; rw [List.mem_singleton] at hp; subst hp; norm_num)

/-- Counterexample to C8 as stated: a process the driver reports on both the
compute and the graphics engine (pid 5 here, with aggregate utilization 50%)
is recorded with the graphics share 50%, not with 0%. -/
theorem compute_pid_overwritten_cx :
    (5 ∈ [5]) ∧
    lookupPid (get_gpu_usage_per_process true true ⟨some [5], some [5], some 50⟩) 5
      = some 50
    ∧ (50 : ℚ) ≠ 0 := by
  refine ⟨by decide, ?_, by norm_num⟩
  norm_num [get_gpu_usage_per_process, insertPid, lookupPid, perProcessUtil]

/-- C8 (amended): every process the driver reports on the compute engine and
not also on the graphics engine is recorded with exactly 0% utilization; a
pid on both lists is overwritten with the graphics equal share. -/
theorem compute_pid_zero_unless_graphics (cs gs : List ℕ) (ur : Option ℚ)
    (pid : ℕ) (hc : pid ∈ cs) (hg : pid ∉ gs) :
    lookupPid (get_gpu_usage_per_process true true ⟨some cs, some gs, ur⟩) pid
      = some 0 := by
  have hred : get_gpu_usage_per_process true true ⟨some cs, some gs, ur⟩
      = gs.foldl (fun acc q => insertPid acc q
          (perProcessUtil (ur.getD 0) (gs.length : ℚ)))
          (cs.foldl (fun acc q => insertPid acc q 0) []) := by
    simp [get_gpu_usage_per_process, perProcessUtil]
  rw [hred, lookup_foldl_insert_not_mem _ _ _ _ hg,
    lookup_foldl_insert_mem _ _ _ _ hc]

/-- Witness for the amended C8: a compute-only pid maps to 0%. -/
theorem compute_pid_zero_unless_graphics_witness :
    lookupPid (get_gpu_usage_per_process true true ⟨some [7], some [], some 80⟩) 7
      = some 0 :=
  compute_pid_zero_unless_graphics [7] [] (some 80) 7 (by simp) (by simp)

/-- C9: `check_foreground` leaves the shared activity state untouched, returns
`true` exactly when the foreground pid exists and is in the queried set, and
returns `false` when there is no foreground window. -/
theorem check_foreground_pure_query (st : ActivityState) (fg : Option ℕ)
    (pids : List ℕ) :
    (check_foreground st fg pids).2 = st
    ∧ ((check_foreground st fg pids).1 = true
        ↔ ∃ pid, fg = some pid ∧ pid ∈ pids)
    ∧ (fg = none → (check_foreground st fg pids).1 = false) := by
  cases fg <;> simp [check_foreground]

/-- Witness for C9 with foreground pid 4 and query set `[1, 4]`. -/
theorem check_foreground_pure_query_witness :
    (check_foreground ⟨9, 9, 1, 1⟩ (some 4) [1, 4]).2 = ⟨9, 9, 1, 1⟩
    ∧ ((check_foreground ⟨9, 9, 1, 1⟩ (some 4) [1, 4]).1 = true
        ↔ ∃ pid, (some 4 : Option ℕ) = some pid ∧ pid ∈ [1, 4])
    ∧ ((some 4 : Option ℕ) = none →
        (check_foreground ⟨9, 9, 1, 1⟩ (some 4) [1, 4]).1 = false) :=
  check_foreground_pure_query ⟨9, 9, 1, 1⟩ (some 4) [1, 4]

/-- C10: a mouse-move to exactly `(0,0)` stores `(0,0)` as the previous
position, so the immediately following move is treated as having no prior
position: it re-seeds the reference point and adds no distance. -/
theorem mouse_origin_resets_reference (st : ActivityState) (c₁ c₂ x y : ℤ)
    (h₁ : 0 ≤ c₁) (h₂ : 0 ≤ c₂) :
    (mouse_hook_proc st c₁ true 0 0).prevCursorX = 0
    ∧ (mouse_hook_proc st c₁ true 0 0).prevCursorY = 0
    ∧ (mouse_hook_proc (mouse_hook_proc st c₁ true 0 0) c₂ true x y).mouseDistance
        = (mouse_hook_proc st c₁ true 0 0).mouseDistance
    ∧ (mouse_hook_proc (mouse_hook_proc st c₁ true 0 0) c₂ true x y).prevCursorX = x
    ∧ (mouse_hook_proc (mouse_hook_proc st c₁ true 0 0) c₂ true x y).prevCursorY = y := by
  obtain ⟨hx, hy⟩ := mouse_hook_proc_prev st c₁ 0 0 h₁
  rw [mouse_hook_proc_from_origin _ c₂ x y h₂ hx hy]
  exact ⟨hx, hy, rfl, rfl, rfl⟩

/-- Witness for C10: a move to the origin from `(5,5)` followed by a move to
`(3,4)` adds no distance. -/
theorem mouse_origin_resets_reference_witness :
    (mouse_hook_proc ⟨0, 0, 5, 5⟩ 0 true 0 0).prevCursorX = 0
    ∧ (mouse_hook_proc ⟨0, 0, 5, 5⟩ 0 true 0 0).prevCursorY = 0
    ∧ (mouse_hook_proc (mouse_hook_proc ⟨0, 0, 5, 5⟩ 0 true 0 0) 0 true 3 4).mouseDistance
        = (mouse_hook_proc ⟨0, 0, 5, 5⟩ 0 true 0 0).mouseDistance
    ∧ (mouse_hook_proc (mouse_hook_proc ⟨0, 0, 5, 5⟩ 0 true 0 0) 0 true 3 4).prevCursorX = 3
    ∧ (mouse_hook_proc (mouse_hook_proc ⟨0, 0, 5, 5⟩ 0 true 0 0) 0 true 3 4).prevCursorY = 4 :=
  mouse_origin_resets_reference ⟨0, 0, 5, 5⟩ 0 0 3 4 (le_refl 0) (le_refl 0)

end PerformanceGuard
